import Mathlib

/-
Verification of the faremeter evm-example resource server
(scripts/evm-example/server-express.ts).

The server exposes two payment-gated routes. The `/weather` inner action
returns a constant JSON body. The `/tee-demo` inner action makes two
strictly sequential outbound HTTP calls to the Redpill AI provider: a chat
completion (step A) and then a TEE signature fetch keyed by the chat
response id (step B), with all failures caught and turned into structured
JSON error responses.

We embed the `/tee-demo` inner handler as a pure function from the
configured API key and a "fetch world" (an oracle giving the outcome of
each outbound call) to the HTTP response written plus the ordered trace of
outbound calls made. JavaScript `throw`/`catch` is modelled by explicit
case analysis reaching the single catch-all translation, and the untyped
results of `response.json()` are modelled by structures mirroring the
TypeScript interfaces, with runtime-optional pieces as `Option`.
-/

namespace EvmExample

/-- A JSON value, modelling the bodies the handlers pass to res.json.
Object fields whose value is a JavaScript undefined are omitted from the
field list, matching JSON serialization. -/
inductive Json where
  | null : Json
  | bool : Bool → Json
  | num : Int → Json
  | str : String → Json
  | arr : List Json → Json
  | obj : List (String × Json) → Json

/-- First value bound to a key in an association list of JSON fields. -/
def lookupFields : List (String × Json) → String → Option Json
  | [], _ => none
  | (k, v) :: rest, key => if k = key then some v else lookupFields rest key

/-- Field lookup on a JSON value: only objects have fields. -/
def Json.lookup : Json → String → Option Json
  | .obj fields, key => lookupFields fields key
  | _, _ => none

/-- Whether a JSON value is an object carrying the given field. -/
def Json.hasField (j : Json) (key : String) : Bool :=
  (j.lookup key).isSome

/-- Field list for a JSON field that may be a JavaScript undefined:
absent values serialize to no field at all. -/
def optField (key : String) : Option Json → List (String × Json)
  | none => []
  | some v => [(key, v)]

/-- JavaScript truthiness of an optional string (process.env values are
string or undefined): undefined and the empty string are falsy. -/
def jsFalsyOpt : Option String → Bool
  | none => true
  | some s => decide (s = "")

/-- JavaScript a || b for an optional string a: the default is taken when
a is undefined or empty (both falsy). -/
def jsOrStr (x : Option String) (d : String) : String :=
  match x with
  | none => d
  | some s => if s = "" then d else s

/-- A value thrown by JavaScript code: an Error instance with a message, or
any non-Error value. -/
inductive JsError where
  | error (message : String)
  | nonError

/-- Message the catch block extracts from a thrown value:
error instanceof Error ? error.message : "Unknown error occurred". -/
def jsErrorMessage : JsError → String
  | .error m => m
  | .nonError => "Unknown error occurred"

/-- Message part of the chat interface RedpillChatResponse.choices[i].
The interface declares content as a string, but the value comes from an
unvalidated response.json(), so content may be absent at runtime; the
handler coalesces it with || "". -/
structure ChatMessage where
  role : String
  content : Option String

/-- One element of RedpillChatResponse.choices. -/
structure ChatChoice where
  message : ChatMessage

/-- Usage counters of RedpillChatResponse (optional in the interface). -/
structure Usage where
  prompt_tokens : Nat
  completion_tokens : Nat
  total_tokens : Nat

/-- Parsed body of the chat completions response (interface
RedpillChatResponse in the source). -/
structure RedpillChatResponse where
  id : String
  model : String
  choices : List ChatChoice
  usage : Option Usage

/-- Signature object of RedpillSignatureResponse (optional). -/
structure TeeSignature where
  algorithm : String
  curve : String
  value : String
  public_key : String
  message_hash : String

/-- Payload object of RedpillSignatureResponse (optional). -/
structure TeePayload where
  request_hash : String
  response_hash : String
  timestamp : String
  model : String
  tee_instance : String

/-- Parsed body of the signature response (interface
RedpillSignatureResponse in the source). -/
structure RedpillSignatureResponse where
  request_id : String
  model : String
  signature : Option TeeSignature
  payload : Option TeePayload
  cert_chain : Option (List String)

/-- Outcome of an outbound fetch that resolved to a response: HTTP status
and status text, the body text (used by the error-logging paths), and the
result of awaiting response.json() on it (which may itself throw). -/
structure FetchResp (α : Type) where
  status : Nat
  statusText : String
  text : String
  json : Except JsError α

/-- Response.ok of the fetch API: status in the 2xx range. -/
def FetchResp.ok {α : Type} (r : FetchResp α) : Bool :=
  decide (200 ≤ r.status ∧ r.status < 300)

/-- Outcome of an outbound fetch call: the promise rejected (network
error), or it resolved to a response. -/
inductive FetchOutcome (α : Type) where
  | reject (e : JsError)
  | resp (r : FetchResp α)

/-- An outbound network call made by the handler, with the URL and the
Authorization header value it was given. -/
inductive FetchCall where
  | chat (url : String) (auth : String)
  | signature (url : String) (auth : String)
deriving DecidableEq

/-- Whether a recorded outbound call is a signature-endpoint call. -/
def isSignatureCall : FetchCall → Bool
  | .signature _ _ => true
  | .chat _ _ => false

/-- Number of signature-endpoint calls in a trace. -/
def sigCount (tr : List FetchCall) : Nat :=
  (tr.filter isSignatureCall).length

/-- Environment of outbound calls for one request: the outcome of the chat
call, and the outcome of a signature call as a function of the URL fetched. -/
structure World where
  chat : FetchOutcome RedpillChatResponse
  sig : String → FetchOutcome RedpillSignatureResponse

/-- An HTTP response written by a handler: status code and JSON body. -/
structure HttpResponse where
  status : Nat
  body : Json

/-- URL of the chat completions endpoint. -/
def chatUrl : String := "https://api.redpill.ai/v1/chat/completions"

/-- Fixed part of the signature URL before the request id. -/
def sigUrlHead : String := "https://api.redpill.ai/v1/signature/"

/-- Fixed query string of the signature URL after the request id. -/
def sigUrlQuery : String := "?model=phala/qwen-2.5-7b-instruct&signing_algo=ecdsa"

/-- The signatureUrl template literal of the source: the request id from
step A spliced between the fixed head and query string. -/
def signatureUrl (requestId : String) : String :=
  sigUrlHead ++ requestId ++ sigUrlQuery

/-- Authorization header value: Bearer followed by the key. -/
def bearer (key : String) : String := "Bearer " ++ key

/-- Recorded chat call (step A). -/
def chatCall (key : String) : FetchCall := .chat chatUrl (bearer key)

/-- Recorded signature call (step B). -/
def sigCall (key url : String) : FetchCall := .signature url (bearer key)

/-- Error message thrown when the chat response is not ok. -/
def chatFailMsg (status : Nat) (statusText : String) : String :=
  "Chat API failed: " ++ toString status ++ " " ++ statusText

/-- Error message thrown when the signature response is not ok. -/
def sigFailMsg (status : Nat) (statusText : String) : String :=
  "Signature API failed: " ++ toString status ++ " " ++ statusText

/-- Body sent with status 500 when REDPILL_API_KEY is not configured. -/
def configErrorBody : Json :=
  .obj [("error", .str "Service configuration error"),
        ("message", .str "REDPILL_API_KEY not configured in environment")]

/-- Response produced by the catch block of the /tee-demo handler from a
thrown value. -/
def catchResponse (e : JsError) : HttpResponse :=
  { status := 500,
    body := .obj [("error", .str "TEE verification failed"),
                  ("message", .str (jsErrorMessage e))] }

/-- Extraction chatData.choices[0]?.message.content || "" of the success
path: the first choice message content, with undefined (no first choice,
or no content) and the empty string coalesced to the empty string. -/
def extractContent (choices : List ChatChoice) : String :=
  jsOrStr (choices.head?.bind (fun c => c.message.content)) ""

/-- Expression signatureData.cert_chain?.length ?? 0 of the success path. -/
def certChainLength (s : RedpillSignatureResponse) : Nat :=
  match s.cert_chain with
  | some l => l.length
  | none => 0

/-- JSON serialization of the usage counters. -/
def usageJson (u : Usage) : Json :=
  .obj [("prompt_tokens", .num u.prompt_tokens),
        ("completion_tokens", .num u.completion_tokens),
        ("total_tokens", .num u.total_tokens)]

/-- JSON serialization of the signature object. -/
def signatureJson (s : TeeSignature) : Json :=
  .obj [("algorithm", .str s.algorithm),
        ("curve", .str s.curve),
        ("value", .str s.value),
        ("public_key", .str s.public_key),
        ("message_hash", .str s.message_hash)]

/-- JSON serialization of the payload object. -/
def payloadJson (p : TeePayload) : Json :=
  .obj [("request_hash", .str p.request_hash),
        ("response_hash", .str p.response_hash),
        ("timestamp", .str p.timestamp),
        ("model", .str p.model),
        ("tee_instance", .str p.tee_instance)]

/-- Combined result body the /tee-demo handler sends on success, mirroring
the res.json object literal of the source. -/
def successBody (d : RedpillChatResponse) (s : RedpillSignatureResponse) : Json :=
  .obj [("message", .str "Thanks for your payment! Here\x27s your TEE-verified AI response."),
        ("chat", .obj ([("request_id", .str d.id),
                        ("model", .str d.model),
                        ("response", .str (extractContent d.choices))]
                       ++ optField "usage" (d.usage.map usageJson))),
        ("tee_verification",
          .obj ([("request_id", .str s.request_id)]
                ++ optField "signature" (s.signature.map signatureJson)
                ++ optField "payload" (s.payload.map payloadJson)
                ++ [("cert_chain_length", .num (certChainLength s))]))]

/-- Step B of the /tee-demo handler: fetch the TEE signature for the
request id obtained in step A, throw on a non-ok status or a json() error
(landing in the catch block), and otherwise send the combined result. -/
def stageB (key : String) (w : World) (chatData : RedpillChatResponse) :
    HttpResponse × List FetchCall :=
  let url := signatureUrl chatData.id
  let calls := [chatCall key, sigCall key url]
  match w.sig url with
  | .reject e => (catchResponse e, calls)
  | .resp s =>
    if !s.ok then
      (catchResponse (.error (sigFailMsg s.status s.statusText)), calls)
    else
      match s.json with
      | .error e => (catchResponse e, calls)
      | .ok sigData => ({ status := 200, body := successBody chatData sigData }, calls)

/-- Step A of the /tee-demo handler: call the chat completions endpoint,
throw on a non-ok status or a json() error (landing in the catch block),
and otherwise continue with step B on the parsed chat data. -/
def stageA (key : String) (w : World) : HttpResponse × List FetchCall :=
  match w.chat with
  | .reject e => (catchResponse e, [chatCall key])
  | .resp r =>
    if !r.ok then
      (catchResponse (.error (chatFailMsg r.status r.statusText)), [chatCall key])
    else
      match r.json with
      | .error e => (catchResponse e, [chatCall key])
      | .ok chatData => stageB key w chatData

/-- Inner action of the /tee-demo route: if REDPILL_API_KEY is falsy
(unset or empty) respond 500 with the configuration-error body and make no
outbound call; otherwise run the two-step sequence. Returns the response
written and the ordered trace of outbound calls made. -/
def teeDemoHandler (apiKey : Option String) (w : World) :
    HttpResponse × List FetchCall :=
  if jsFalsyOpt apiKey then
    ({ status := 500, body := configErrorBody }, [])
  else
    stageA (apiKey.getD "") w

/-- An inbound HTTP request as far as the inner actions can see it. -/
structure Request where
  path : String
  headers : List (String × String)
  body : String

/-- Constant body of the /weather inner action. -/
def weatherBody : Json :=
  .obj [("temperature", .num 72),
        ("conditions", .str "sunny"),
        ("message", .str "Thanks for your payment!")]

/-- Inner action of the /weather route: ignores the request and sends the
constant weather JSON. -/
def weatherHandler (_r : Request) : HttpResponse :=
  { status := 200, body := weatherBody }

/-- Whether a character is a hexadecimal digit. -/
def isHexDigit (c : Char) : Bool :=
  c.isDigit
    || (decide ('a' ≤ c) && decide (c ≤ 'f'))
    || (decide ('A' ≤ c) && decide (c ≤ 'F'))

/-- Modelled from the spec: `isAddress` from @faremeter/types/evm, whose
implementation is not under src/. Syntactic validity of an EVM chain
address: 0x followed by 40 hexadecimal digits. -/
def isAddress (s : String) : Bool :=
  match s.data with
  | '0' :: 'x' :: rest => rest.length == 40 && rest.all isHexDigit
  | _ => false

/-- Startup outcome of the process: aborted with the thrown error message,
or started serving the routes after logging the given warnings. -/
inductive StartupResult where
  | aborted (message : String)
  | started (warnings : List String) (routes : List String)

/-- Warning logged when REDPILL_API_KEY is falsy at startup. -/
def startupWarning : String :=
  "REDPILL_API_KEY not set in environment. The /tee-demo endpoint will not function."

/-- Startup sequence of the source: throw (abort) when the receiving
address is not a valid EVM address, warn but continue when the API key is
falsy, then serve both routes. -/
def startup (evmReceivingAddress redpillApiKey : Option String) : StartupResult :=
  let payTo := evmReceivingAddress.getD ""
  if !isAddress payTo then
    .aborted "EVM_RECEIVING_ADDRESS must be set in your environment, and be a valid EVM address"
  else
    .started (if jsFalsyOpt redpillApiKey then [startupWarning] else [])
      ["/weather", "/tee-demo"]

/-- A configuration error raised while constructing a payment requirement. -/
structure ConfigurationError where
  message : String

/-- What payment an endpoint demands. -/
structure PaymentRequirement where
  network : String
  asset : String
  payTo : String
  amount : Int

/-- Modelled from the spec: `x402Exact` from @faremeter/info/evm, whose
implementation is not under src/. Constructs the PaymentRequirement for a
route; fails with a ConfigurationError if the payee is not a valid address
for the network, or if the amount does not parse to a value greater
than 0. -/
def x402Exact (network asset payTo amount : String) :
    Except ConfigurationError PaymentRequirement :=
  if !isAddress payTo then
    .error ⟨"payee is not a valid address for the network"⟩
  else
    match String.toInt? amount with
    | none => .error ⟨"amount does not parse to an integer"⟩
    | some n =>
      if n ≤ 0 then .error ⟨"amount parses to a value that is not positive"⟩
      else .ok ⟨network, asset, payTo, n⟩

/-! Helper lemmas shared by the theorems below. -/

lemma jsFalsyOpt_of_ne (key : String) (h : key ≠ "") : jsFalsyOpt (some key) = false := by
  simp [jsFalsyOpt, h]

lemma teeDemoHandler_some (key : String) (w : World) (h : key ≠ "") :
    teeDemoHandler (some key) w = stageA key w := by
  simp [teeDemoHandler, jsFalsyOpt_of_ne key h]

lemma stageB_trace (key : String) (w : World) (d : RedpillChatResponse) :
    (stageB key w d).2 = [chatCall key, sigCall key (signatureUrl d.id)] := by
  cases h : w.sig (signatureUrl d.id) with
  | reject e => simp [stageB, h]
  | resp s =>
    by_cases hok : s.ok
    · cases hj : s.json <;> simp [stageB, h, hok, hj]
    · simp [stageB, h, hok]

lemma lookupFields_append (xs ys : List (String × Json)) (k : String) :
    lookupFields (xs ++ ys) k =
      match lookupFields xs k with
      | some v => some v
      | none => lookupFields ys k := by
  induction xs with
  | nil => rfl
  | cons p rest ih =>
    obtain ⟨k₁, v⟩ := p
    by_cases h : k₁ = k <;> simp [lookupFields, h, ih]

lemma lookupFields_optField_ne (k₁ : String) (x : Option Json) (k : String) (h : k₁ ≠ k) :
    lookupFields (optField k₁ x) k = none := by
  cases x <;> simp [optField, lookupFields, h]

lemma catchResponse_hasFields (e : JsError) :
    (catchResponse e).body.hasField "error" = true ∧
    (catchResponse e).body.hasField "message" = true := by
  simp [catchResponse, Json.hasField, Json.lookup, lookupFields]

/-! Theorems settling the claims. -/

/-- C2: when REDPILL_API_KEY is unset, every request to the /tee-demo
inner action gets HTTP 500 with the configuration-error JSON body, and the
handler makes zero outbound network calls. -/
theorem tee_demo_missing_key_short_circuits (w : World) :
    teeDemoHandler none w =
      ({ status := 500,
         body := .obj [("error", .str "Service configuration error"),
                       ("message", .str "REDPILL_API_KEY not configured in environment")] },
       []) :=
  rfl

/-- C9: the /weather inner action returns exactly the constant JSON body
with temperature 72, conditions sunny and the thanks message, independent
of the request, so any two accepted requests get the same output. -/
theorem weather_constant_body (r : Request) :
    weatherHandler r =
      { status := 200,
        body := .obj [("temperature", .num 72),
                      ("conditions", .str "sunny"),
                      ("message", .str "Thanks for your payment!")] } ∧
    ∀ r₂ : Request, weatherHandler r = weatherHandler r₂ :=
  ⟨rfl, fun _ => rfl⟩

/-- C7: the chat.response extraction takes the first choice message
content, defaulting to the empty string when the first choice is absent
(empty choices array) or its content is absent, and is total. -/
theorem extractContent_total_default :
    extractContent [] = "" ∧
    ∀ (c : ChatChoice) (rest : List ChatChoice),
      extractContent (c :: rest) = c.message.content.getD "" := by
  refine ⟨rfl, ?_⟩
  intro c rest
  cases h : c.message.content with
  | none => simp [extractContent, jsOrStr, h]
  | some s =>
    by_cases hs : s = "" <;> simp [extractContent, jsOrStr, h, hs]

/-- C8: a missing REDPILL_API_KEY at startup is a soft failure: with a
valid receiving address the process starts, logs the warning, and serves
both routes rather than aborting. -/
theorem startup_missing_key_soft_warn (addr : String) (h : isAddress addr = true) :
    startup (some addr) none = .started [startupWarning] ["/weather", "/tee-demo"] := by
  simp [startup, h, jsFalsyOpt]

/-- Witness for C8 at a concrete valid address. -/
theorem startup_missing_key_soft_warn_witness :
    startup (some "0x0000000000000000000000000000000000000000") none =
      .started [startupWarning] ["/weather", "/tee-demo"] :=
  startup_missing_key_soft_warn "0x0000000000000000000000000000000000000000" (by decide)

/-- C5: constructing the PaymentRequirement fails with a
ConfigurationError when the payee is not a valid address for the network
or the amount parses to a value at most 0; an invalid payee also aborts
startup with a descriptive error. -/
theorem x402Exact_invalid_config (network asset payTo amount : String)
    (h : isAddress payTo = false ∨ ∃ n, String.toInt? amount = some n ∧ n ≤ 0) :
    (∃ e, x402Exact network asset payTo amount = .error e) ∧
    (isAddress payTo = false →
      ∀ k, ∃ m, startup (some payTo) k = .aborted m) := by
  constructor
  · rcases h with h | ⟨n, hn, hle⟩
    · exact ⟨⟨"payee is not a valid address for the network"⟩, by simp [x402Exact, h]⟩
    · by_cases ha : isAddress payTo
      · refine ⟨⟨"amount parses to a value that is not positive"⟩, ?_⟩
        simp [x402Exact, ha, hn, hle]
      · exact ⟨⟨"payee is not a valid address for the network"⟩,
          by simp [x402Exact, Bool.not_eq_true _ ▸ ha]⟩
  · intro ha k
    exact ⟨"EVM_RECEIVING_ADDRESS must be set in your environment, and be a valid EVM address",
      by simp [startup, ha]⟩

/-- Witness for C5: an invalid payee string is rejected. -/
theorem x402Exact_invalid_config_witness :
    ∃ e, x402Exact "base-sepolia" "USDC" "not-an-address" "10000" = .error e :=
  (x402Exact_invalid_config "base-sepolia" "USDC" "not-an-address" "10000"
    (Or.inl (by decide))).1

/-- C1: the attestation call is never made when the chat endpoint returns
a non-2xx status (its call count is 0), and any signature call happens
only after a successful chat call, strictly sequentially: the trace is
then exactly the chat call followed by the signature call. -/
theorem tee_demo_signature_only_after_chat_success (key : String) (w : World) :
    (∀ r : FetchResp RedpillChatResponse,
        w.chat = .resp r → r.ok = false →
        sigCount (teeDemoHandler (some key) w).2 = 0) ∧
    (∀ c : FetchCall, c ∈ (teeDemoHandler (some key) w).2 →
        isSignatureCall c = true →
        ∃ (r : FetchResp RedpillChatResponse) (d : RedpillChatResponse),
          w.chat = .resp r ∧ r.ok = true ∧ r.json = .ok d ∧
          (teeDemoHandler (some key) w).2 =
            [chatCall key, sigCall key (signatureUrl d.id)] ∧
          c = sigCall key (signatureUrl d.id)) := by
  by_cases hk : key = ""
  · subst hk
    have htr : (teeDemoHandler (some "") w).2 = [] := by
      simp [teeDemoHandler, jsFalsyOpt]
    constructor
    · intro r _ _
      simp [htr, sigCount]
    · intro c hc _
      rw [htr] at hc
      simp at hc
  · rw [teeDemoHandler_some key w hk]
    cases hchat : w.chat with
    | reject e =>
      have htr : (stageA key w).2 = [chatCall key] := by simp [stageA, hchat]
      constructor
      · intro r _ _
        simp [htr, sigCount, chatCall, isSignatureCall]
      · intro c hc hsig
        rw [htr] at hc
        simp at hc
        rw [hc] at hsig
        simp [chatCall, isSignatureCall] at hsig
    | resp r =>
      cases hok : r.ok with
      | false =>
        have htr : (stageA key w).2 = [chatCall key] := by simp [stageA, hchat, hok]
        constructor
        · intro r₂ _ _
          simp [htr, sigCount, chatCall, isSignatureCall]
        · intro c hc hsig
          rw [htr] at hc
          simp at hc
          rw [hc] at hsig
          simp [chatCall, isSignatureCall] at hsig
      | true =>
        cases hj : r.json with
        | error e =>
          have htr : (stageA key w).2 = [chatCall key] := by
            simp [stageA, hchat, hok, hj]
          constructor
          · intro r₂ _ _
            simp [htr, sigCount, chatCall, isSignatureCall]
          · intro c hc hsig
            rw [htr] at hc
            simp at hc
            rw [hc] at hsig
            simp [chatCall, isSignatureCall] at hsig
        | ok d =>
          have htr : (stageA key w).2 = [chatCall key, sigCall key (signatureUrl d.id)] := by
            simp [stageA, hchat, hok, hj, stageB_trace]
          constructor
          · intro r₂ hr₂ hok₂
            injection hr₂ with he
            rw [← he, hok] at hok₂
            simp at hok₂
          · intro c hc hsig
            rw [htr] at hc
            simp at hc
            rcases hc with hc | hc
            · rw [hc] at hsig
              simp [chatCall, isSignatureCall] at hsig
            · exact ⟨r, d, rfl, hok, hj, htr, hc⟩

/-- Chat fetch outcome used in the witness for C1: a 503 response. -/
def c1ChatResp : FetchResp RedpillChatResponse :=
  { status := 503, statusText := "Service Unavailable", text := "overloaded",
    json := .error .nonError }

/-- Fetch world used in the witness for C1. -/
def c1World : World :=
  { chat := .resp c1ChatResp, sig := fun _ => .reject .nonError }

/-- Witness for C1: with a 503 chat response, no signature call is made. -/
theorem tee_demo_signature_only_after_chat_success_witness :
    sigCount (teeDemoHandler (some "k") c1World).2 = 0 :=
  (tee_demo_signature_only_after_chat_success "k" c1World).1 c1ChatResp rfl rfl

/-- C3: on a successful chat response, the handler makes the signature
call at the URL formed from the exact chat response id spliced unmodified
between the fixed head and query string of the signature endpoint. -/
theorem tee_demo_forwards_exact_request_id (key : String) (w : World)
    (r : FetchResp RedpillChatResponse) (d : RedpillChatResponse)
    (hkey : key ≠ "") (hchat : w.chat = .resp r) (hok : r.ok = true)
    (hjson : r.json = .ok d) :
    (teeDemoHandler (some key) w).2 =
      [chatCall key, .signature (sigUrlHead ++ d.id ++ sigUrlQuery) (bearer key)] := by
  rw [teeDemoHandler_some key w hkey]
  simp [stageA, hchat, hok, hjson, stageB_trace, sigCall, signatureUrl]

/-- Chat response used in the witness for C3. -/
def c3Chat : RedpillChatResponse :=
  { id := "abc-123", model := "m", choices := [], usage := none }

/-- Chat fetch outcome used in the witness for C3. -/
def c3ChatResp : FetchResp RedpillChatResponse :=
  { status := 200, statusText := "OK", text := "", json := .ok c3Chat }

/-- Fetch world used in the witness for C3. -/
def c3World : World :=
  { chat := .resp c3ChatResp, sig := fun _ => .reject .nonError }

/-- Witness for C3 at a concrete chat response id. -/
theorem tee_demo_forwards_exact_request_id_witness :
    (teeDemoHandler (some "k") c3World).2 =
      [chatCall "k", .signature (sigUrlHead ++ "abc-123" ++ sigUrlQuery) (bearer "k")] :=
  tee_demo_forwards_exact_request_id "k" c3World c3ChatResp c3Chat
    (by decide) rfl rfl rfl

/-- Chat response of the C4 scenario. -/
def c4Chat : RedpillChatResponse :=
  { id := "req-1", model := "m",
    choices := [{ message := { role := "assistant", content := some "hi" } }],
    usage := none }

/-- Signature response of the C4 scenario. -/
def c4Sig : RedpillSignatureResponse :=
  { request_id := "req-1", model := "m", signature := none, payload := none,
    cert_chain := some ["a", "b"] }

/-- Fetch world of the C4 scenario: the chat endpoint returns the C4 chat
body, and the signature endpoint keyed by req-1 returns the C4 signature
body. -/
def c4World : World :=
  { chat := .resp { status := 200, statusText := "OK", text := "", json := .ok c4Chat },
    sig := fun url =>
      if url = signatureUrl "req-1" then
        .resp { status := 200, statusText := "OK", text := "", json := .ok c4Sig }
      else
        .reject .nonError }

/-- C4: in the concrete scenario where the chat endpoint returns id req-1
with single choice content hi and the signature endpoint returns a
two-element cert_chain, the final response body has chat.response equal to
hi and tee_verification.cert_chain_length equal to 2. -/
theorem tee_demo_scenario_req1 :
    ((teeDemoHandler (some "test-key") c4World).1.body.lookup "chat").bind
        (fun j => j.lookup "response") = some (.str "hi") ∧
    ((teeDemoHandler (some "test-key") c4World).1.body.lookup "tee_verification").bind
        (fun j => j.lookup "cert_chain_length") = some (.num 2) :=
  ⟨rfl, rfl⟩

lemma stageA_response_shape (key : String) (w : World) :
    (stageA key w).1.status = 200 ∨
    ((stageA key w).1.body.hasField "error" = true ∧
     (stageA key w).1.body.hasField "message" = true) := by
  cases hchat : w.chat with
  | reject e =>
    right
    have hb : (stageA key w).1 = catchResponse e := by simp [stageA, hchat]
    rw [hb]
    exact catchResponse_hasFields e
  | resp r =>
    cases hok : r.ok with
    | false =>
      right
      have hb : (stageA key w).1 = catchResponse (.error (chatFailMsg r.status r.statusText)) := by
        simp [stageA, hchat, hok]
      rw [hb]
      exact catchResponse_hasFields _
    | true =>
      cases hj : r.json with
      | error e =>
        right
        have hb : (stageA key w).1 = catchResponse e := by simp [stageA, hchat, hok, hj]
        rw [hb]
        exact catchResponse_hasFields e
      | ok d =>
        have hs : stageA key w = stageB key w d := by simp [stageA, hchat, hok, hj]
        rw [hs]
        cases hsig : w.sig (signatureUrl d.id) with
        | reject e =>
          right
          have hb : (stageB key w d).1 = catchResponse e := by simp [stageB, hsig]
          rw [hb]
          exact catchResponse_hasFields e
        | resp s =>
          cases hsok : s.ok with
          | false =>
            right
            have hb : (stageB key w d).1 =
                catchResponse (.error (sigFailMsg s.status s.statusText)) := by
              simp [stageB, hsig, hsok]
            rw [hb]
            exact catchResponse_hasFields _
          | true =>
            cases hsj : s.json with
            | error e =>
              right
              have hb : (stageB key w d).1 = catchResponse e := by
                simp [stageB, hsig, hsok, hsj]
              rw [hb]
              exact catchResponse_hasFields e
            | ok sd =>
              left
              simp [stageB, hsig, hsok, hsj]

/-- C6: every failure path of the /tee-demo handler (missing credential,
chat-stage failure, signature-stage failure, or any other thrown value,
Error or not) responds with a JSON object carrying an error field and a
message field; no raw thrown value escapes the handler. -/
theorem tee_demo_failure_body_well_formed (apiKey : Option String) (w : World)
    (h : (teeDemoHandler apiKey w).1.status ≠ 200) :
    (teeDemoHandler apiKey w).1.body.hasField "error" = true ∧
    (teeDemoHandler apiKey w).1.body.hasField "message" = true := by
  cases hf : jsFalsyOpt apiKey with
  | true =>
    simp [teeDemoHandler, hf, configErrorBody, Json.hasField, Json.lookup, lookupFields]
  | false =>
    have hh : teeDemoHandler apiKey w = stageA (apiKey.getD "") w := by
      simp [teeDemoHandler, hf]
    rw [hh] at h ⊢
    rcases stageA_response_shape (apiKey.getD "") w with h200 | hgood
    · exact absurd h200 h
    · exact hgood

/-- Fetch world used in the witness for C6. -/
def c6World : World :=
  { chat := .reject .nonError, sig := fun _ => .reject .nonError }

/-- Witness for C6: with the credential unset the failure body carries the
error and message fields. -/
theorem tee_demo_failure_body_well_formed_witness :
    (teeDemoHandler none c6World).1.body.hasField "error" = true ∧
    (teeDemoHandler none c6World).1.body.hasField "message" = true :=
  tee_demo_failure_body_well_formed none c6World (by decide)

/-- C10: in every success response, tee_verification.cert_chain_length is
the length of the upstream cert_chain array when present, and 0 when the
array is absent. -/
theorem tee_demo_cert_chain_length_field (key : String) (w : World)
    (rc : FetchResp RedpillChatResponse) (d : RedpillChatResponse)
    (rs : FetchResp RedpillSignatureResponse) (s : RedpillSignatureResponse)
    (hkey : key ≠ "") (hchat : w.chat = .resp rc) (hcok : rc.ok = true)
    (hcj : rc.json = .ok d)
    (hsig : w.sig (signatureUrl d.id) = .resp rs) (hsok : rs.ok = true)
    (hsj : rs.json = .ok s) :
    ((teeDemoHandler (some key) w).1.body.lookup "tee_verification").bind
        (fun j => j.lookup "cert_chain_length") = some (.num (certChainLength s)) ∧
    (∀ l, s.cert_chain = some l → certChainLength s = l.length) ∧
    (s.cert_chain = none → certChainLength s = 0) := by
  refine ⟨?_, ?_, ?_⟩
  · rw [teeDemoHandler_some key w hkey]
    have hs : stageA key w = stageB key w d := by simp [stageA, hchat, hcok, hcj]
    rw [hs]
    have hb : (stageB key w d).1 = { status := 200, body := successBody d s } := by
      simp [stageB, hsig, hsok, hsj]
    rw [hb]
    simp [successBody, Json.lookup, lookupFields, lookupFields_append,
      lookupFields_optField_ne]
  · intro l hl
    simp [certChainLength, hl]
  · intro hn
    simp [certChainLength, hn]

/-- Chat response used in the witness for C10. -/
def c10Chat : RedpillChatResponse :=
  { id := "r10", model := "m", choices := [], usage := none }

/-- Signature response used in the witness for C10: three certificates. -/
def c10Sig : RedpillSignatureResponse :=
  { request_id := "r10", model := "m", signature := none, payload := none,
    cert_chain := some ["x", "y", "z"] }

/-- Chat fetch outcome used in the witness for C10. -/
def c10ChatResp : FetchResp RedpillChatResponse :=
  { status := 200, statusText := "OK", text := "", json := .ok c10Chat }

/-- Signature fetch outcome used in the witness for C10. -/
def c10SigResp : FetchResp RedpillSignatureResponse :=
  { status := 200, statusText := "OK", text := "", json := .ok c10Sig }

/-- Fetch world used in the witness for C10. -/
def c10World : World :=
  { chat := .resp c10ChatResp,
    sig := fun url =>
      if url = signatureUrl "r10" then .resp c10SigResp else .reject .nonError }

/-- Witness for C10 at a three-element cert chain. -/
theorem tee_demo_cert_chain_length_field_witness :
    ((teeDemoHandler (some "k") c10World).1.body.lookup "tee_verification").bind
        (fun j => j.lookup "cert_chain_length") = some (.num 3) :=
  (tee_demo_cert_chain_length_field "k" c10World c10ChatResp c10Chat c10SigResp c10Sig
    (by decide) rfl rfl rfl rfl rfl rfl).1

end EvmExample
